import Mathlib

/- Verification development for the data-processing core of slurm-plot
   (slurm_plot/processor.py, class SlurmDataProcessor).

   Modelling conventions.
   Timestamp cells are `Option Int` (seconds since the epoch): the pipeline's
   subtraction in `_calculate_times` (line 112) runs before the
   `pd.to_datetime` conversion (lines 90-92) and is only well defined on
   already-parsed datetime columns, where a missing value is NaT, modelled as
   `none`.  Numeric cells are `Option Rat` with `none` standing for NaN;
   floating-point arithmetic is modelled exactly over `Rat`.  A DataFrame is a
   list of row records; `Except` models raised versus returned results. -/

namespace SlurmPlot

/-- One raw job row as delivered to `process_data` (the fixed column
vocabulary of the fetcher: identifiers, submit/start/end timestamps,
resource counts and a state label). -/
structure Raw where
  JobID : Nat
  Submit : Option Int
  Start : Option Int
  End : Option Int
  ReqCPUS : Option Rat
  AllocCPUS : Option Rat
  CPUTimeRAW : Option Rat
  ReqMem : Option Rat
  MaxRSS : Option Rat
  GPUCount : Option Rat
  State : String
deriving DecidableEq

/-- Series subtraction `(a - b).dt.total_seconds()`: NaT propagates to NaN. -/
def optSubSeconds (a b : Option Int) : Option Rat :=
  match a, b with
  | some x, some y => some ((x : Rat) - y)
  | _, _ => none

/-- `Series.clip(lower=0)`: NaN is left alone, numbers are floored at 0. -/
def clipLower0 : Option Rat → Option Rat
  | none => none
  | some q => some (max q 0)

/-- `Series.fillna(0)`. -/
def fillna0 : Option Rat → Rat
  | none => 0
  | some q => q

/-- `queue_time_hours` of `_calculate_times` (lines 112-125): seconds between
Start and Submit, divided by 3600, clipped at 0 from below, NaN filled with 0. -/
def queue_time_hours_of (r : Raw) : Rat :=
  fillna0 (clipLower0 ((optSubSeconds r.Start r.Submit).map (fun s => s / 3600)))

/-- `run_time_hours` of `_calculate_times` (lines 116-125): seconds between
End and Start, divided by 3600, clipped at 0 from below, NaN filled with 0. -/
def run_time_hours_of (r : Raw) : Rat :=
  fillna0 (clipLower0 ((optSubSeconds r.End r.Start).map (fun s => s / 3600)))

/-- The cleanup loop of `_calculate_resource_usage` (lines 157-161):
`pd.to_numeric(..., errors='coerce')` (identity on numeric cells),
`.fillna(0)`, then `.clip(lower=0)`. -/
def clean_numeric (x : Option Rat) : Rat :=
  max (fillna0 x) 0

/-- `used_cpu_hours` (line 140): CPUTimeRAW seconds divided by 3600, then the
cleanup loop. -/
def used_cpu_hours_of (r : Raw) : Rat :=
  clean_numeric (r.CPUTimeRAW.map (fun s => s / 3600))

/-- `allocated_cpu_hours` (line 141): AllocCPUS times run_time_hours, then the
cleanup loop. -/
def allocated_cpu_hours_of (r : Raw) : Rat :=
  clean_numeric (r.AllocCPUS.map (fun c => c * run_time_hours_of r))

/-- `req_mem_gb` (lines 144-151): ReqMem carried through (both branches of the
memory-unit test assign the same value), then the cleanup loop. -/
def req_mem_gb_of (r : Raw) : Rat :=
  clean_numeric r.ReqMem

/-- `max_rss_gb` (lines 144-151): MaxRSS carried through, then the cleanup loop. -/
def max_rss_gb_of (r : Raw) : Rat :=
  clean_numeric r.MaxRSS

/-- `gpu_hours` (line 154): GPUCount times run_time_hours, then the cleanup loop. -/
def gpu_hours_of (r : Raw) : Rat :=
  clean_numeric (r.GPUCount.map (fun c => c * run_time_hours_of r))

/-- `cpu_efficiency` of `_calculate_efficiency_metrics` (lines 176-181):
`np.where(allocated > 0, used / allocated, 0)` then `.clip(upper=1.0)`. -/
def cpu_efficiency_of (r : Raw) : Rat :=
  min (if 0 < allocated_cpu_hours_of r
       then used_cpu_hours_of r / allocated_cpu_hours_of r else 0) 1

/-- `memory_efficiency` (lines 184-189): `np.where(req_mem > 0, max_rss /
req_mem, 0)` then `.clip(upper=1.0)`. -/
def memory_efficiency_of (r : Raw) : Rat :=
  min (if 0 < req_mem_gb_of r
       then max_rss_gb_of r / req_mem_gb_of r else 0) 1

/-- One enriched job row: the raw columns that the aggregation reads, plus
the derived columns of `_calculate_times`, `_calculate_resource_usage` and
`_calculate_efficiency_metrics`, plus the parsed `submit_time`. -/
structure Enriched where
  JobID : Nat
  ReqCPUS : Option Rat
  AllocCPUS : Option Rat
  GPUCount : Option Rat
  used_cpu_hours : Rat
  allocated_cpu_hours : Rat
  req_mem_gb : Rat
  max_rss_gb : Rat
  gpu_hours : Rat
  queue_time_hours : Rat
  run_time_hours : Rat
  cpu_efficiency : Rat
  memory_efficiency : Rat
  submit_time : Option Int
deriving DecidableEq

/-- Per-row effect of `_enrich_job_data` after the `dropna` filter: derive all
columns (lines 79-81), then the missing-submit fallback (lines 84-87; the
`isna` disjunct is modelled, the `== 'Unknown'` disjunct has no inhabitant in
a parsed datetime column), then `pd.to_datetime(..., errors='coerce')`
(lines 90-92, the identity on parsed datetime cells). -/
def enrichRecord (r : Raw) : Enriched :=
  { JobID := r.JobID
    ReqCPUS := r.ReqCPUS
    AllocCPUS := r.AllocCPUS
    GPUCount := r.GPUCount
    used_cpu_hours := used_cpu_hours_of r
    allocated_cpu_hours := allocated_cpu_hours_of r
    req_mem_gb := req_mem_gb_of r
    max_rss_gb := max_rss_gb_of r
    gpu_hours := gpu_hours_of r
    queue_time_hours := queue_time_hours_of r
    run_time_hours := run_time_hours_of r
    cpu_efficiency := cpu_efficiency_of r
    memory_efficiency := memory_efficiency_of r
    submit_time := if r.Submit.isNone then r.Start else r.Submit }

/-- `_enrich_job_data` (lines 65-99): `df.dropna(subset=['Submit'])` first
(line 76), then the per-row derivations and conversions. -/
def _enrich_job_data (df : List Raw) : List Enriched :=
  (df.filter (fun r => r.Submit.isSome)).map enrichRecord

/-- The three supported aggregation granularities (keys of `time_col_map`,
lines 205-209). -/
inductive Granularity
  | hour
  | day
  | week
deriving DecidableEq

/-- Bucket start for a parsed submit time (lines 95-97): `dt.floor('h')`,
`dt.floor('D')`, and `dt.to_period('W').dt.start_time`.  Seconds since the
epoch; `Int` division is floor division for these positive divisors.  Day 0
(1970-01-01) is a Thursday, so the Monday-based weekday of day `d` is
`(d + 3) % 7`, and the pandas weekly period `W-SUN` starts on the Monday
`d - (d + 3) % 7`. -/
def floorKey : Granularity → Int → Int
  | .hour, t => 3600 * (t / 3600)
  | .day, t => 86400 * (t / 86400)
  | .week, t => 86400 * (t / 86400 - (t / 86400 + 3) % 7)

/-- The grouping column selected by `time_col_map[interval]` (lines 214-220):
`submit_hour` / `submit_day` / `submit_week`, each the floored `submit_time`
(NaT floors to NaT). -/
def keyCol (g : Granularity) (r : Enriched) : Option Int :=
  r.submit_time.map (floorKey g)

/-- The multiset of non-missing bucket keys of a table (pandas `groupby`
ignores NaT keys). -/
def keyList (df : List Enriched) (g : Granularity) : List Int :=
  df.filterMap (keyCol g)

/-- The distinct bucket keys in ascending order: `groupby` group keys after
`sort_index()` (line 288). -/
def keysOf (df : List Enriched) (g : Granularity) : List Int :=
  List.insertionSort (fun a b => a ≤ b) (keyList df g).dedup

/-- The rows of one `groupby` group. -/
def groupOf (df : List Enriched) (g : Granularity) (k : Int) : List Enriched :=
  df.filter (fun r => decide (keyCol g r = some k))

/-- Sum of a numeric column that may contain NaN: pandas `sum` skips NaN. -/
def sumOpt (l : List (Option Rat)) : Rat :=
  (l.filterMap id).sum

/-- Mean of a numeric column (`sum / length`; groups are never empty). -/
def meanQ (l : List Rat) : Rat :=
  l.sum / l.length

/-- One output row of `_aggregate_by_interval`: the aggregation dictionary of
lines 223-248 applied to one group, after the renaming of lines 254-267 and
the `used_mem` alias of line 270.  `bucket` is the row's index value
(the group key).  `allocated_cpu_hours`, `cpu_efficiency` and
`memory_efficiency` are aggregated but not renamed, so they remain in the
output beside the eleven public metrics. -/
structure AggRowK where
  bucket : Int
  req_cpus : Rat
  alloc_cpus : Rat
  used_cpus : Rat
  allocated_cpu_hours : Rat
  req_mem : Rat
  max_rss : Rat
  used_mem : Rat
  alloc_gpus : Rat
  used_gpus : Rat
  queue_time : Rat
  run_time : Rat
  cpu_efficiency : Rat
  memory_efficiency : Rat
  job_count : Nat
deriving DecidableEq

/-- Aggregation of one group (lines 223-270): sums for resource columns
(over the raw, uncleaned `ReqCPUS`/`AllocCPUS`/`GPUCount` cells, where pandas
`sum` skips NaN), means for duration and efficiency columns, `count` of
`JobID` for `job_count`, and `used_mem` aliasing `max_rss`. -/
def aggRowFor (k : Int) (grp : List Enriched) : AggRowK :=
  { bucket := k
    req_cpus := sumOpt (grp.map (fun r => r.ReqCPUS))
    alloc_cpus := sumOpt (grp.map (fun r => r.AllocCPUS))
    used_cpus := (grp.map (fun r => r.used_cpu_hours)).sum
    allocated_cpu_hours := (grp.map (fun r => r.allocated_cpu_hours)).sum
    req_mem := (grp.map (fun r => r.req_mem_gb)).sum
    max_rss := (grp.map (fun r => r.max_rss_gb)).sum
    used_mem := (grp.map (fun r => r.max_rss_gb)).sum
    alloc_gpus := sumOpt (grp.map (fun r => r.GPUCount))
    used_gpus := (grp.map (fun r => r.gpu_hours)).sum
    queue_time := meanQ (grp.map (fun r => r.queue_time_hours))
    run_time := meanQ (grp.map (fun r => r.run_time_hours))
    cpu_efficiency := meanQ (grp.map (fun r => r.cpu_efficiency))
    memory_efficiency := meanQ (grp.map (fun r => r.memory_efficiency))
    job_count := grp.length }

/-- The grouping and aggregation of `_aggregate_by_interval` for a valid
granularity (lines 219-290): one output row per distinct non-missing bucket
key, in ascending index order. -/
def aggregate_groups (df : List Enriched) (g : Granularity) : List AggRowK :=
  (keysOf df g).map (fun k => aggRowFor k (groupOf df g k))

/-- `time_col_map` (lines 205-209) as a partial lookup from the requested
interval string. -/
def time_col_map (interval : String) : Option Granularity :=
  if interval = "hour" then some .hour
  else if interval = "day" then some .day
  else if interval = "week" then some .week
  else none

/-- The three supported interval strings. -/
def supported_intervals : List String :=
  ["hour", "day", "week"]

/-- `_aggregate_by_interval` (lines 193-290): raises `ValueError` for an
interval outside `time_col_map` (lines 211-212), otherwise groups and
aggregates.  The second structural check (line 216, grouping column absent)
cannot fire here because the enrichment always produces the three grouping
columns. -/
def _aggregate_by_interval (df : List Enriched) (interval : String) :
    Except String (List AggRowK) :=
  match time_col_map interval with
  | none => Except.error ("Invalid interval: " ++ interval)
  | some g => Except.ok (aggregate_groups df g)

/-- `process_data` (lines 34-63): empty input short-circuits to an empty
table (lines 45-46), then enrichment of a copy of the input (line 52), an
empty-after-enrichment short-circuit (lines 54-55), then aggregation. -/
def process_data (raw : List Raw) (interval : String) :
    Except String (List AggRowK) :=
  if raw.isEmpty then Except.ok []
  else
    let df := _enrich_job_data raw
    if df.isEmpty then Except.ok []
    else _aggregate_by_interval df interval

/-- `process_data` with the caller's table made explicit: the first component
of the result is the caller's `raw_data` as observable after the call.  Line
52 applies the enrichment to `raw_data.copy()`, and every later column write
of the pipeline targets that copy or tables derived from it, so the caller's
table is handed back unchanged. -/
def process_data_state (caller : List Raw) (interval : String) :
    List Raw × Except String (List AggRowK) :=
  if caller.isEmpty then (caller, Except.ok [])
  else
    let working := caller
    let df := _enrich_job_data working
    if df.isEmpty then (caller, Except.ok [])
    else (caller, _aggregate_by_interval df interval)

/-- The columns produced by `grouped.agg(agg_funcs)`, in the order of the
aggregation dictionary (lines 223-248). -/
def agg_funcs_columns : List String :=
  ["ReqCPUS", "AllocCPUS", "used_cpu_hours", "allocated_cpu_hours",
   "req_mem_gb", "max_rss_gb", "GPUCount", "gpu_hours",
   "queue_time_hours", "run_time_hours", "cpu_efficiency",
   "memory_efficiency", "JobID"]

/-- `column_mapping` (lines 254-265) as a total renaming (columns outside the
mapping keep their names, as `DataFrame.rename` does). -/
def column_mapping : String → String
  | "ReqCPUS" => "req_cpus"
  | "AllocCPUS" => "alloc_cpus"
  | "used_cpu_hours" => "used_cpus"
  | "req_mem_gb" => "req_mem"
  | "max_rss_gb" => "max_rss"
  | "GPUCount" => "alloc_gpus"
  | "gpu_hours" => "used_gpus"
  | "queue_time_hours" => "queue_time"
  | "run_time_hours" => "run_time"
  | "JobID" => "job_count"
  | c => c

/-- The eleven public metric columns (lines 273-278). -/
def expected_columns : List String :=
  ["req_cpus", "alloc_cpus", "used_cpus",
   "req_mem", "max_rss", "used_mem",
   "alloc_gpus", "used_gpus",
   "queue_time", "run_time", "job_count"]

/-- The ensure-columns loop (lines 280-282): append any expected column that
is still missing (its values then default to 0). -/
def ensure_columns (cols : List String) : List String :=
  expected_columns.foldl (fun cs c => if c ∈ cs then cs else cs ++ [c]) cols

/-- The column set of the aggregated result: the aggregated columns renamed
(line 267), the `used_mem` alias appended (line 270), and the ensure-columns
loop applied (lines 280-282). -/
def result_columns : List String :=
  ensure_columns ((agg_funcs_columns.map column_mapping) ++ ["used_mem"])

/-- Sum of the `job_count` column of an aggregated table. -/
def sumJobCount (rows : List AggRowK) : Nat :=
  (rows.map (fun row => row.job_count)).sum

/-- Sum of one numeric column of an aggregated table. -/
def colSum (df : List AggRowK) (f : AggRowK → Rat) : Rat :=
  (df.map f).sum

/-- The summary-statistics record of `calculate_summary_stats`
(lines 305-331). -/
structure SummaryStats where
  total_jobs : Nat
  total_cpu_hours_requested : Rat
  total_cpu_hours_allocated : Rat
  total_cpu_hours_used : Rat
  total_memory_requested_gb : Rat
  total_memory_used_gb : Rat
  total_gpu_hours : Rat
  avg_queue_time_hours : Rat
  avg_run_time_hours : Rat
  date_start : Int
  date_end : Int
  overall_cpu_efficiency : Rat
  overall_memory_efficiency : Rat
deriving DecidableEq

/-- `calculate_summary_stats` (lines 292-332): the empty table yields the
empty dictionary (lines 302-303, modelled as `none`); otherwise column sums
and means, the index extremes, and the two overall efficiency ratios, each a
ratio of sums guarded by a positivity test on its denominator
(lines 322-330). -/
def calculate_summary_stats : List AggRowK → Option SummaryStats
  | [] => none
  | r :: rs =>
    let df := r :: rs
    let total_alloc := colSum df (fun row => row.alloc_cpus)
    let total_used := colSum df (fun row => row.used_cpus)
    let total_req_mem := colSum df (fun row => row.req_mem)
    let total_used_mem := colSum df (fun row => row.max_rss)
    some
      { total_jobs := sumJobCount df
        total_cpu_hours_requested := colSum df (fun row => row.req_cpus)
        total_cpu_hours_allocated := total_alloc
        total_cpu_hours_used := total_used
        total_memory_requested_gb := total_req_mem
        total_memory_used_gb := total_used_mem
        total_gpu_hours := colSum df (fun row => row.used_gpus)
        avg_queue_time_hours := meanQ (df.map (fun row => row.queue_time))
        avg_run_time_hours := meanQ (df.map (fun row => row.run_time))
        date_start := (rs.map (fun row => row.bucket)).foldl min r.bucket
        date_end := (rs.map (fun row => row.bucket)).foldl max r.bucket
        overall_cpu_efficiency :=
          if 0 < total_alloc then total_used / total_alloc else 0
        overall_memory_efficiency :=
          if 0 < total_req_mem then total_used_mem / total_req_mem else 0 }

/-- A raw record with a missing Submit timestamp but a usable Start
timestamp: the input that separates falling back to Start from dropping. -/
def missingSubmitRecord : Raw :=
  { JobID := 7, Submit := none, Start := some 0, End := some 3600,
    ReqCPUS := some 1, AllocCPUS := some 1, CPUTimeRAW := some 1800,
    ReqMem := some 1, MaxRSS := some 1, GPUCount := some 0,
    State := "COMPLETED" }

/-- An aggregated row of a one-job bucket with cpu_efficiency 1/2. -/
def uniformEffRowSmall : AggRowK :=
  { bucket := 0, req_cpus := 2, alloc_cpus := 2, used_cpus := 1,
    allocated_cpu_hours := 2, req_mem := 1, max_rss := 1, used_mem := 1,
    alloc_gpus := 0, used_gpus := 0, queue_time := 0, run_time := 1,
    cpu_efficiency := 1/2, memory_efficiency := 1, job_count := 1 }

/-- An aggregated row of a three-job bucket with cpu_efficiency 1/2. -/
def uniformEffRowLarge : AggRowK :=
  { bucket := 86400, req_cpus := 4, alloc_cpus := 4, used_cpus := 2,
    allocated_cpu_hours := 4, req_mem := 1, max_rss := 1, used_mem := 1,
    alloc_gpus := 0, used_gpus := 0, queue_time := 0, run_time := 1,
    cpu_efficiency := 1/2, memory_efficiency := 1, job_count := 3 }

/-- An aggregated row of a one-job bucket with cpu_efficiency 0. -/
def zeroEffRow : AggRowK :=
  { bucket := 0, req_cpus := 2, alloc_cpus := 2, used_cpus := 0,
    allocated_cpu_hours := 2, req_mem := 1, max_rss := 1, used_mem := 1,
    alloc_gpus := 0, used_gpus := 0, queue_time := 0, run_time := 1,
    cpu_efficiency := 0, memory_efficiency := 1, job_count := 1 }

/-- An aggregated row of a three-job bucket with cpu_efficiency 1. -/
def fullEffRow : AggRowK :=
  { bucket := 86400, req_cpus := 4, alloc_cpus := 4, used_cpus := 4,
    allocated_cpu_hours := 4, req_mem := 1, max_rss := 1, used_mem := 1,
    alloc_gpus := 0, used_gpus := 0, queue_time := 0, run_time := 1,
    cpu_efficiency := 1, memory_efficiency := 1, job_count := 3 }

/- Helper lemmas about the embedding. -/

theorem keyCol_isSome (g : Granularity) (r : Enriched) :
    (keyCol g r).isSome = r.submit_time.isSome := by
  cases h : r.submit_time <;> simp [keyCol, h]

theorem keyList_filter_isSome (df : List Enriched) (g : Granularity) :
    keyList (df.filter (fun r => r.submit_time.isSome)) g = keyList df g := by
  induction df with
  | nil => rfl
  | cons r t ih =>
    cases h : r.submit_time <;>
      simp [keyList, keyCol, h, List.filter_cons, List.filterMap_cons] <;>
      simpa [keyList, keyCol] using ih

theorem groupOf_filter_isSome (df : List Enriched) (g : Granularity) (k : Int) :
    groupOf (df.filter (fun r => r.submit_time.isSome)) g k = groupOf df g k := by
  induction df with
  | nil => rfl
  | cons r t ih =>
    cases h : r.submit_time with
    | none => simpa [groupOf, List.filter_cons, keyCol, h] using ih
    | some v =>
      by_cases hk : floorKey g v = k <;>
        simpa [groupOf, List.filter_cons, keyCol, h, hk] using ih

theorem keyList_length (df : List Enriched) (g : Granularity) :
    (keyList df g).length = (df.filter (fun r => r.submit_time.isSome)).length := by
  induction df with
  | nil => rfl
  | cons r t ih =>
    cases h : r.submit_time <;>
      simpa [keyList, keyCol, h, List.filter_cons, List.filterMap_cons] using ih

theorem groupOf_length_count (df : List Enriched) (g : Granularity) (k : Int) :
    (groupOf df g k).length = (keyList df g).count k := by
  induction df with
  | nil => rfl
  | cons r t ih =>
    cases h : r.submit_time with
    | none => simpa [groupOf, keyList, keyCol, h, List.filter_cons, List.filterMap_cons] using ih
    | some v =>
      by_cases hk : floorKey g v = k <;>
        simpa [groupOf, keyList, keyCol, h, hk, List.filter_cons, List.filterMap_cons,
               List.count_cons] using ih

theorem keysOf_perm_dedup (df : List Enriched) (g : Granularity) :
    (keysOf df g).Perm (keyList df g).dedup :=
  List.perm_insertionSort (fun a b => a ≤ b) (keyList df g).dedup

theorem keysOf_nodup (df : List Enriched) (g : Granularity) :
    (keysOf df g).Nodup :=
  (List.Perm.nodup_iff (keysOf_perm_dedup df g)).mpr (List.nodup_dedup (keyList df g))

theorem keysOf_sorted (df : List Enriched) (g : Granularity) :
    List.Sorted (fun a b => a ≤ b) (keysOf df g) :=
  List.sorted_insertionSort (fun a b => a ≤ b) (keyList df g).dedup

theorem mem_keysOf_iff (df : List Enriched) (g : Granularity) (k : Int) :
    k ∈ keysOf df g ↔ k ∈ keyList df g := by
  rw [List.Perm.mem_iff (keysOf_perm_dedup df g)]
  exact List.mem_dedup

theorem map_bucket_aggregate (df : List Enriched) (g : Granularity) :
    (aggregate_groups df g).map (fun row => row.bucket) = keysOf df g := by
  unfold aggregate_groups
  rw [List.map_map,
      show ((fun row => row.bucket) ∘ fun k => aggRowFor k (groupOf df g k)) = id from rfl,
      List.map_id]

theorem sumJobCount_aggregate (df : List Enriched) (g : Granularity) :
    sumJobCount (aggregate_groups df g)
      = (df.filter (fun r => r.submit_time.isSome)).length := by
  have h1 : sumJobCount (aggregate_groups df g)
      = ((keysOf df g).map (fun k => (keyList df g).count k)).sum := by
    unfold sumJobCount aggregate_groups
    rw [List.map_map,
        show ((fun row => row.job_count) ∘ fun k => aggRowFor k (groupOf df g k))
            = (fun k => (groupOf df g k).length) from rfl]
    simp only [groupOf_length_count]
  have h2 : ((keysOf df g).map (fun k => (keyList df g).count k)).sum
      = (((keyList df g).dedup).map (fun k => (keyList df g).count k)).sum :=
    List.Perm.sum_eq (List.Perm.map _ (keysOf_perm_dedup df g))
  rw [h1, h2, List.sum_map_count_dedup_eq_length, keyList_length]

theorem aggregate_filter_isSome (df : List Enriched) (g : Granularity) :
    aggregate_groups (df.filter (fun r => r.submit_time.isSome)) g
      = aggregate_groups df g := by
  have hkeys : keysOf (df.filter (fun r => r.submit_time.isSome)) g = keysOf df g := by
    simp [keysOf, keyList_filter_isSome]
  simp [aggregate_groups, hkeys, groupOf_filter_isSome]

theorem dedup_length_map_le (l : List Int) (f : Int → Int) :
    ((l.map f).dedup).length ≤ (l.dedup).length := by
  induction l with
  | nil => exact Nat.le_refl 0
  | cons a t ih =>
    by_cases h : a ∈ t
    · rw [List.map_cons, List.dedup_cons_of_mem (List.mem_map_of_mem f h),
          List.dedup_cons_of_mem h]
      exact ih
    · rw [List.dedup_cons_of_not_mem h]
      by_cases hf : f a ∈ t.map f
      · rw [List.map_cons, List.dedup_cons_of_mem hf]
        exact Nat.le_succ_of_le ih
      · rw [List.map_cons, List.dedup_cons_of_not_mem hf]
        exact Nat.succ_le_succ ih

theorem int_ediv_ediv (t a b : Int) (ha : 0 < a) (hb : 0 < b) :
    t / a / b = t / (a * b) := by
  have hab : 0 < a * b := mul_pos ha hb
  have hr0 : 0 ≤ t % (a * b) := Int.emod_nonneg t (ne_of_gt hab)
  have hrlt : t % (a * b) < a * b := Int.emod_lt_of_pos t hab
  have hdecomp : t = t % (a * b) + a * (b * (t / (a * b))) := by
    have h0 := Int.ediv_add_emod t (a * b)
    rw [mul_assoc] at h0
    linarith [h0]
  have hta : t / a = t % (a * b) / a + b * (t / (a * b)) := by
    nth_rewrite 1 [hdecomp]
    exact Int.add_mul_ediv_left _ _ (ne_of_gt ha)
  have hsmall : t % (a * b) / a / b = 0 := by
    refine Int.ediv_eq_zero_of_lt (Int.ediv_nonneg hr0 (le_of_lt ha)) ?_
    rw [Int.ediv_lt_iff_lt_mul ha]
    linarith [hrlt]
  rw [hta, Int.add_mul_ediv_left _ _ (ne_of_gt hb), hsmall, zero_add]

theorem floorKey_day_hour (t : Int) :
    floorKey .day (floorKey .hour t) = floorKey .day t := by
  have h24 : (86400 : Int) = 3600 * 24 := by norm_num
  have h1 : 3600 * (t / 3600) / 86400 = t / 86400 := by
    rw [h24, Int.mul_ediv_mul_of_pos _ _ (by norm_num : (0:Int) < 3600),
        int_ediv_ediv t 3600 24 (by norm_num) (by norm_num)]
  simp [floorKey, h1]

theorem floorKey_week_day (t : Int) :
    floorKey .week (floorKey .day t) = floorKey .week t := by
  have h1 : 86400 * (t / 86400) / 86400 = t / 86400 :=
    Int.mul_ediv_cancel_left _ (by norm_num)
  simp [floorKey, h1]

theorem keyCol_day_hour (r : Enriched) :
    keyCol .day r = (keyCol .hour r).map (floorKey .day) := by
  cases h : r.submit_time <;> simp [keyCol, h, floorKey_day_hour]

theorem keyCol_week_day (r : Enriched) :
    keyCol .week r = (keyCol .day r).map (floorKey .week) := by
  cases h : r.submit_time <;> simp [keyCol, h, floorKey_week_day]

theorem aggregate_length (df : List Enriched) (g : Granularity) :
    (aggregate_groups df g).length = ((keyList df g).dedup).length := by
  simp [aggregate_groups, keysOf, List.length_insertionSort]

theorem keyList_day_map (df : List Enriched) :
    keyList df .day = (keyList df .hour).map (floorKey .day) := by
  simp only [keyList, List.map_filterMap]
  exact List.filterMap_congr (fun r _ => keyCol_day_hour r)

theorem keyList_week_map (df : List Enriched) :
    keyList df .week = (keyList df .day).map (floorKey .week) := by
  simp only [keyList, List.map_filterMap]
  exact List.filterMap_congr (fun r _ => keyCol_week_day r)

theorem clean_numeric_nonneg (x : Option Rat) : 0 ≤ clean_numeric x :=
  le_max_right (fillna0 x) 0

theorem fillna0_clip_nonneg (x : Option Rat) : 0 ≤ fillna0 (clipLower0 x) := by
  cases x with
  | none => exact le_refl 0
  | some a => exact le_max_right a 0

/- Claim theorems. -/

/-- Claim C1 (amended): for every non-empty AggregatedRow table,
`calculate_summary_stats` returns overall_cpu_efficiency equal to the sum of
the used-CPU column divided by the sum of the allocated-CPU column
(ratio-of-sums, 0 when the denominator is not positive), and
overall_memory_efficiency equal to the sum of used memory divided by the sum
of requested memory with the same guard; and there exists a table with
non-uniform bucket sizes on which this ratio-of-sums differs from the mean
of the per-bucket cpu_efficiency column (though, against the original
claim's "whenever", not every non-uniform table separates them). -/
theorem calculate_summary_stats_ratio_of_sums (r : AggRowK) (rs : List AggRowK) :
    ∃ s, calculate_summary_stats (r :: rs) = some s
      ∧ s.overall_cpu_efficiency
          = (if 0 < colSum (r :: rs) (fun row => row.alloc_cpus)
             then colSum (r :: rs) (fun row => row.used_cpus)
                    / colSum (r :: rs) (fun row => row.alloc_cpus)
             else 0)
      ∧ s.overall_memory_efficiency
          = (if 0 < colSum (r :: rs) (fun row => row.req_mem)
             then colSum (r :: rs) (fun row => row.max_rss)
                    / colSum (r :: rs) (fun row => row.req_mem)
             else 0)
      ∧ ∃ t u, calculate_summary_stats t = some u
          ∧ (∃ a ∈ t, ∃ b ∈ t, a.job_count ≠ b.job_count)
          ∧ u.overall_cpu_efficiency
              ≠ meanQ (t.map (fun row => row.cpu_efficiency)) := by
  refine ⟨_, rfl, rfl, rfl, [zeroEffRow, fullEffRow], _, rfl,
    ⟨zeroEffRow, by simp, fullEffRow, by simp, by decide⟩, ?_⟩
  norm_num [calculate_summary_stats, colSum, meanQ, zeroEffRow, fullEffRow]

/-- Claim C1 (counterexample to the original claim): a table whose bucket
sizes are non-uniform (job_count 1 versus 3) on which the ratio-of-sums
overall_cpu_efficiency coincides with the mean of the per-bucket
cpu_efficiency column, refuting "differs whenever bucket sizes are
non-uniform". -/
theorem mean_equals_ratio_on_nonuniform_table :
    (∃ a ∈ [uniformEffRowSmall, uniformEffRowLarge],
       ∃ b ∈ [uniformEffRowSmall, uniformEffRowLarge], a.job_count ≠ b.job_count)
      ∧ (calculate_summary_stats [uniformEffRowSmall, uniformEffRowLarge]).map
            (fun s => s.overall_cpu_efficiency)
          = some (meanQ ([uniformEffRowSmall, uniformEffRowLarge].map
              (fun row => row.cpu_efficiency))) := by
  constructor
  · exact ⟨uniformEffRowSmall, by simp, uniformEffRowLarge, by simp, by decide⟩
  · norm_num [calculate_summary_stats, colSum, meanQ, uniformEffRowSmall,
      uniformEffRowLarge]

/-- Claim C2 (code evaluation at the failing input): a record whose Submit is
missing but whose Start is usable is dropped by the normalizer: the
`dropna(subset=['Submit'])` at line 76 runs before the start-time fallback of
lines 84-87, so the fallback documented in the code's own comment ("Use
Start time as fallback for submit time", guarding on `isna`) can never fire
for a missing submit, and the record is lost instead of kept. -/
theorem missing_submit_dropped_before_fallback :
    _enrich_job_data [missingSubmitRecord] = []
      ∧ missingSubmitRecord.Submit = none
      ∧ missingSubmitRecord.Start.isSome = true :=
  ⟨rfl, rfl, rfl⟩

/-- Claim C3: for every record, the derived cpu_efficiency and
memory_efficiency lie in [0, 1]; each is 0 when its denominator is not
positive and otherwise the quotient clamped from above at 1, with numerator
and denominator already clamped non-negative. -/
theorem efficiency_in_unit_interval (r : Raw) :
    0 ≤ cpu_efficiency_of r ∧ cpu_efficiency_of r ≤ 1
      ∧ cpu_efficiency_of r
          = (if 0 < allocated_cpu_hours_of r
             then min (used_cpu_hours_of r / allocated_cpu_hours_of r) 1
             else 0)
      ∧ 0 ≤ memory_efficiency_of r ∧ memory_efficiency_of r ≤ 1
      ∧ memory_efficiency_of r
          = (if 0 < req_mem_gb_of r
             then min (max_rss_gb_of r / req_mem_gb_of r) 1
             else 0)
      ∧ 0 ≤ used_cpu_hours_of r ∧ 0 ≤ allocated_cpu_hours_of r
      ∧ 0 ≤ max_rss_gb_of r ∧ 0 ≤ req_mem_gb_of r := by
  have hcpu0 : 0 ≤ (if 0 < allocated_cpu_hours_of r
      then used_cpu_hours_of r / allocated_cpu_hours_of r else 0) := by
    split_ifs with h
    · exact div_nonneg (clean_numeric_nonneg _) (le_of_lt h)
    · exact le_refl 0
  have hmem0 : 0 ≤ (if 0 < req_mem_gb_of r
      then max_rss_gb_of r / req_mem_gb_of r else 0) := by
    split_ifs with h
    · exact div_nonneg (clean_numeric_nonneg _) (le_of_lt h)
    · exact le_refl 0
  refine ⟨le_min hcpu0 zero_le_one, min_le_right _ _, ?_,
    le_min hmem0 zero_le_one, min_le_right _ _, ?_,
    clean_numeric_nonneg _, clean_numeric_nonneg _,
    clean_numeric_nonneg _, clean_numeric_nonneg _⟩
  · unfold cpu_efficiency_of
    split_ifs with h
    · rfl
    · exact min_eq_left zero_le_one
  · unfold memory_efficiency_of
    split_ifs with h
    · rfl
    · exact min_eq_left zero_le_one

/-- Claim C4: for every record, the derived queue duration is start minus
submit (in hours) floored at zero, and the derived run duration is end minus
start floored at zero; a missing timestamp in the pair, like a negative
difference, produces 0 rather than an error, and both durations are
non-negative for all inputs. -/
theorem durations_floored_at_zero (r : Raw) :
    queue_time_hours_of r
        = (match r.Start, r.Submit with
           | some s, some b => max (((s : Rat) - (b : Rat)) / 3600) 0
           | _, _ => 0)
      ∧ run_time_hours_of r
        = (match r.End, r.Start with
           | some e, some s => max (((e : Rat) - (s : Rat)) / 3600) 0
           | _, _ => 0)
      ∧ 0 ≤ queue_time_hours_of r ∧ 0 ≤ run_time_hours_of r := by
  refine ⟨?_, ?_, fillna0_clip_nonneg _, fillna0_clip_nonneg _⟩
  · cases hs : r.Start <;> cases hb : r.Submit <;>
      simp [queue_time_hours_of, optSubSeconds, clipLower0, fillna0, hs, hb]
  · cases he : r.End <;> cases hs : r.Start <;>
      simp [run_time_hours_of, optSubSeconds, clipLower0, fillna0, he, hs]

/-- Claim C5: for every enriched input and every supported granularity the
aggregated output is sorted ascending by bucket start (with distinct
buckets), the result's column set contains all eleven public metric columns
(the ensure-columns loop fills any missing one with 0, so none is absent),
and every output row has a positive job_count and a used_mem equal to
max_rss — each metric carries a value, never a null. -/
theorem aggregated_schema_and_order (df : List Enriched) (g : Granularity) :
    List.Sorted (fun a b => a ≤ b)
        ((aggregate_groups df g).map (fun row => row.bucket))
      ∧ ((aggregate_groups df g).map (fun row => row.bucket)).Nodup
      ∧ expected_columns.all (fun c => decide (c ∈ result_columns)) = true
      ∧ (aggregate_groups df g).all
          (fun row => decide (1 ≤ row.job_count)
            && decide (row.used_mem = row.max_rss)) = true := by
  refine ⟨?_, ?_, by decide, ?_⟩
  · rw [map_bucket_aggregate]
    exact keysOf_sorted df g
  · rw [map_bucket_aggregate]
    exact keysOf_nodup df g
  · rw [List.all_eq_true]
    intro row hrow
    simp only [aggregate_groups] at hrow
    obtain ⟨k, hk, rfl⟩ := List.mem_map.mp hrow
    have hmem : k ∈ keyList df g := (mem_keysOf_iff df g k).mp hk
    have hcount : 0 < (keyList df g).count k := List.count_pos_iff.mpr hmem
    have hlen : 0 < (groupOf df g k).length := by
      rw [groupOf_length_count]
      exact hcount
    simp only [aggRowFor, Bool.and_eq_true, decide_eq_true_eq]
    exact ⟨hlen, trivial⟩

/-- Claim C6: for every enriched input, the aggregator raises the
invalid-interval error exactly for a requested granularity outside
{hour, day, week} (so "month" errors and produces no output), and returns a
result without error exactly for a granularity inside that set. -/
theorem invalid_granularity_errors (df : List Enriched) (interval : String) :
    ((∃ e, _aggregate_by_interval df interval = Except.error e)
        ↔ interval ∉ supported_intervals)
      ∧ ((∃ rows, _aggregate_by_interval df interval = Except.ok rows)
        ↔ interval ∈ supported_intervals) := by
  by_cases h1 : interval = "hour"
  · subst h1
    simp [_aggregate_by_interval, time_col_map, supported_intervals]
  · by_cases h2 : interval = "day"
    · subst h2
      simp [_aggregate_by_interval, time_col_map, supported_intervals]
    · by_cases h3 : interval = "week"
      · subst h3
        simp [_aggregate_by_interval, time_col_map, supported_intervals]
      · simp [_aggregate_by_interval, time_col_map, supported_intervals, h1, h2, h3]

/-- Claim C6 (witness): the granularity "month" makes the aggregator error
and the granularity "day" does not. -/
theorem invalid_granularity_errors_witness :
    (∃ e, _aggregate_by_interval ([] : List Enriched) "month" = Except.error e)
      ∧ (∃ rows, _aggregate_by_interval ([] : List Enriched) "day" = Except.ok rows) :=
  ⟨(invalid_granularity_errors [] "month").1.mpr (by decide),
   (invalid_granularity_errors [] "day").2.mpr (by decide)⟩

/-- Claim C7: the empty input batch makes `process_data` return an empty
aggregated table without signaling an error, for any requested interval
(the empty-input check precedes even the granularity check), and
`calculate_summary_stats` of an empty table is the empty result, not an
error. -/
theorem empty_input_empty_output (interval : String) :
    process_data [] interval = Except.ok []
      ∧ calculate_summary_stats [] = none :=
  ⟨rfl, rfl⟩

/-- Claim C8: on every fixed enriched table, aggregating at week produces at
most as many rows as aggregating at day, which produces at most as many rows
as aggregating at hour: each coarser bucket key is the image of the finer
one under a floor map. -/
theorem granularity_row_count_monotone (df : List Enriched) :
    (aggregate_groups df .week).length ≤ (aggregate_groups df .day).length
      ∧ (aggregate_groups df .day).length ≤ (aggregate_groups df .hour).length := by
  constructor
  · rw [aggregate_length, aggregate_length, keyList_week_map]
    exact dedup_length_map_le _ _
  · rw [aggregate_length, aggregate_length, keyList_day_map]
    exact dedup_length_map_le _ _

/-- Claim C9: `process_data` leaves the caller's input batch unchanged: in
the state-passing model whose first component is the caller's table as
observable after the call (the enrichment works on the copy made at line
52), the table handed back is exactly the input, and the returned value is
the pure pipeline result. -/
theorem input_batch_not_mutated (caller : List Raw) (interval : String) :
    (process_data_state caller interval).1 = caller
      ∧ (process_data_state caller interval).2 = process_data caller interval := by
  unfold process_data_state process_data
  by_cases h : caller.isEmpty
  · simp [h]
  · by_cases h2 : (_enrich_job_data caller).isEmpty
    · simp [h, h2]
    · simp [h, h2]

/-- Claim C10: for every enriched table and granularity, rows whose bucket
key is missing are excluded from every output row (aggregating the table
equals aggregating its restriction to rows with a present submit_time), and
the sum of job_count over the aggregated output equals the number of rows
with a usable bucket key; at the pipeline level the sum of job_count equals
the number of raw records retained with a usable submit timestamp, not the
number of input records. -/
theorem job_count_counts_keyed_records (df : List Enriched) (raw : List Raw)
    (g : Granularity) :
    aggregate_groups df g
        = aggregate_groups (df.filter (fun r => r.submit_time.isSome)) g
      ∧ sumJobCount (aggregate_groups df g)
          = (df.filter (fun r => r.submit_time.isSome)).length
      ∧ sumJobCount (aggregate_groups (_enrich_job_data raw) g)
          = (raw.filter (fun r => r.Submit.isSome)).length := by
  refine ⟨(aggregate_filter_isSome df g).symm, sumJobCount_aggregate df g, ?_⟩
  rw [sumJobCount_aggregate]
  have hall : ∀ x ∈ _enrich_job_data raw, x.submit_time.isSome = true := by
    intro x hx
    simp only [_enrich_job_data, List.mem_map] at hx
    obtain ⟨r0, hr0, rfl⟩ := hx
    have hsub : r0.Submit.isSome = true := by
      simpa using (List.mem_filter.mp hr0).2
    obtain ⟨v, hv⟩ := Option.isSome_iff_exists.mp hsub
    simp [enrichRecord, hv]
  rw [List.filter_eq_self.mpr hall]
  simp [_enrich_job_data]

end SlurmPlot
